import Mathlib

/-!
Verification development for the SyncBox serial driver
(`NordicNeuroLab.py`, class `SyncBox`).

The driver is embedded shallowly:

* A serial port is a record of the bytes written so far, the bytes the
  device will supply to subsequent reads, the mutable read-timeout field
  (in milliseconds; `none` models Python's `None`, i.e. wait forever),
  and whether the port has been closed.  `read n` returns up to `n`
  pending bytes, as pyserial does under a timeout.
* Python's raise/return control flow becomes the `PyResult` type; the
  single `SyncBoxException` class is refined into the error kinds named
  by the design document, one per raise site.
* Python's `str` on an integer becomes `pyStr`, a decimal-representation
  function on `Int` (fuel-based so that it evaluates by `decide`).
* The `time.sleep` settle delays have no observable effect on the state
  modelled here and are elided.
-/

namespace SyncBox

/-- Error kinds of the driver.  The source raises a single
`SyncBoxException`; the kinds below follow the design document's
taxonomy, one kind per raise site of the source. -/
inductive SyncBoxError where
  | portNotFound
  | configurationFailed
  | startFailed
  | stopFailed
  | disconnectFailed
  | parameterOutOfRange
  | notConnected
deriving DecidableEq

/-- Result of a Python call: a returned value or a raised exception. -/
inductive PyResult (α : Type) where
  | ok : α → PyResult α
  | exn : SyncBoxError → PyResult α
deriving DecidableEq

/-- State of one serial connection.  `written` is the byte sequence the
driver has written, `input` the bytes the device will feed to reads,
`timeoutMs` the stored read-timeout field (`none` = Python `None`),
`closed` whether `close()` has been called on the transport. -/
structure Port where
  written : List Nat
  input : List Nat
  timeoutMs : Option Nat
  closed : Bool
deriving DecidableEq

/-- `port.write(bs)`: append the bytes to the outgoing sequence. -/
def Port.write (p : Port) (bs : List Nat) : Port :=
  { p with written := p.written ++ bs }

/-- `port.read(n)`: under a timeout pyserial returns up to `n` bytes;
the device-supplied pending bytes are consumed in order. -/
def Port.read (p : Port) (n : Nat) : List Nat × Port :=
  (p.input.take n, { p with input := p.input.drop n })

/-- Constructor parameters of `SyncBox.__init__`, with the source's
default values. -/
structure Config where
  num_volumes : Int := 16
  num_slices : Int := 1
  trigger_slice : Int := 1
  trigger_volume : Int := 1
  pulse_length : Int := 100
  TR_time : Int := 3000
  optional_trigger_slice : Int := 0
  optional_trigger_volume : Int := 0
  simulation : Bool := true
deriving DecidableEq

/-- Decimal digits (as ASCII byte values) of a natural number, most
significant first; fuel-based recursion on `n / 10`. -/
def natToDecAux : Nat → Nat → List Nat
  | 0, _ => []
  | f + 1, n =>
    if n < 10 then [48 + n] else natToDecAux f (n / 10) ++ [48 + n % 10]

/-- ASCII decimal representation of a natural number (`str(n)`). -/
def natToDec (n : Nat) : List Nat :=
  natToDecAux (n + 1) n

/-- Python `str` on an integer: a minus sign (byte 45) followed by the
digits of the absolute value when negative, plain digits otherwise. -/
def pyStr (v : Int) : List Nat :=
  if v < 0 then 45 :: natToDec v.natAbs else natToDec v.toNat

/-- `SyncBox._stringVar`: left-pad the decimal string of `var` with
ASCII zeros to width 4; raise when the string has length outside 1..4. -/
def stringVar (var : Int) : PyResult (List Nat) :=
  let num := pyStr var
  if num.length = 1 then .ok ([48, 48, 48] ++ num)
  else if num.length = 2 then .ok ([48, 48] ++ num)
  else if num.length = 3 then .ok ([48] ++ num)
  else if num.length = 4 then .ok num
  else .exn .parameterOutOfRange

/-- Parse a list of ASCII digit bytes as a decimal number (Python
`int(s)` on the strings at hand). -/
def decodeDec (ds : List Nat) : Nat :=
  ds.foldl (fun a d => 10 * a + (d - 48)) 0

/-- The literal dummy field `b"0000"`. -/
def dummyField : List Nat := [48, 48, 48, 48]

/-- The twelve configuration fields of `SyncBox._configure`, in the
source's write order (lines 183-197); each is the value the
corresponding `self.port.write(...)` argument evaluates to, or the
exception `_stringVar` raises while evaluating it. -/
def configFields (cfg : Config) : List (PyResult (List Nat)) :=
  [ .ok dummyField,
    stringVar cfg.num_volumes,
    stringVar cfg.num_slices,
    stringVar cfg.pulse_length,
    stringVar cfg.TR_time,
    stringVar cfg.trigger_slice,
    stringVar cfg.trigger_volume,
    .ok dummyField,
    .ok dummyField,
    stringVar cfg.optional_trigger_slice,
    stringVar cfg.optional_trigger_volume,
    .ok (if cfg.simulation then [48, 48, 48, 48] else [48, 48, 48, 49]) ]

/-- Execute the field writes of `_configure` in order: each successful
field is written to the port; the first raising field aborts the
sequence with its exception, leaving later fields unwritten. -/
def writeFields : List (PyResult (List Nat)) → Port → PyResult Unit × Port
  | [], p => (.ok (), p)
  | .exn e :: _, p => (.exn e, p)
  | .ok bs :: fs, p => writeFields fs (p.write bs)

/-- `SyncBox._configure`: write `'R'` (82), read one confirmation byte
and require `'R'`; then write the twelve fields; then read 48 echo
bytes and require exactly 48. -/
def configure (cfg : Config) (p : Port) : PyResult Unit × Port :=
  let p1 := p.write [82]
  let (conf, p2) := p1.read 1
  if conf ≠ [82] then (.exn .configurationFailed, p2)
  else
    match writeFields (configFields cfg) p2 with
    | (.exn e, p3) => (.exn e, p3)
    | (.ok _, p3) =>
      let (echo, p4) := p3.read 48
      if echo.length ≠ 48 then (.exn .configurationFailed, p4)
      else (.ok (), p4)

/-- `SyncBox.start`: write `'S'` (83), read one byte, require `'S'`. -/
def start (p : Port) : PyResult Unit × Port :=
  let p1 := p.write [83]
  let (conf, p2) := p1.read 1
  if conf ≠ [83] then (.exn .startFailed, p2) else (.ok (), p2)

/-- `SyncBox.stop`: write `'A'` (65), read one byte, require `'A'`. -/
def stop (p : Port) : PyResult Unit × Port :=
  let p1 := p.write [65]
  let (conf, p2) := p1.read 1
  if conf ≠ [65] then (.exn .stopFailed, p2) else (.ok (), p2)

/-- `SyncBox.close`: write `'D'` (68), read one byte; on a mismatched
confirmation the source raises before reaching `self.port.close()`, so
the transport is only marked closed on the matching branch. -/
def close (p : Port) : PyResult Unit × Port :=
  let p1 := p.write [68]
  let (conf, p2) := p1.read 1
  if conf ≠ [68] then (.exn .disconnectFailed, p2)
  else (.ok (), { p2 with closed := true })

/-- Python `bytes.decode("utf-8")` on a single byte: the ASCII bytes
0..127 decode to themselves; every byte 128..255 is not a valid
one-byte UTF-8 sequence and raises `UnicodeDecodeError`. -/
def decodeUtf8Byte (b : Nat) : Option Nat :=
  if b < 128 then some b else none

/-- `SyncBox.getTrigger`: install the per-call timeout (default 0),
read one byte, set the stored timeout to `None`, and UTF-8-decode the
result (a byte string of length at most 1, decoded bytewise). -/
def getTrigger (p : Port) (t : Option Nat := some 0) :
    Option (List Nat) × Port :=
  let p1 : Port := { p with timeoutMs := t }
  let (out, p2) := p1.read 1
  let p3 : Port := { p2 with timeoutMs := none }
  (out.mapM decodeUtf8Byte, p3)

/-- One candidate endpoint during discovery: whether `Serial(port=...)`
opens without `SerialException`, and the bytes the endpoint supplies to
the probe read. -/
structure Candidate where
  opens : Bool
  reply : List Nat
deriving DecidableEq

/-- What happened to a candidate during discovery.  The source's loop
body contains no `close()` call, so a probed non-matching endpoint is
left open (`probedNotClosed`). -/
inductive ProbeOutcome where
  | notTried
  | openFailed
  | probedNotClosed
  | chosen
deriving DecidableEq

/-- Probe one candidate (source lines 148-153): open at 57600 baud, set
the timeout field to 0.2 s (200 ms), write `'C'` (67), read one byte.
Returns the confirmation bytes and the resulting port state. -/
def probe (c : Candidate) : List Nat × Port :=
  let p0 : Port := { written := [], input := c.reply, timeoutMs := none, closed := false }
  let p1 : Port := { p0 with timeoutMs := some 200 }
  let p2 := p1.write [67]
  let (conf, p3) := p2.read 1
  (conf, p3)

/-- Shift the candidate index of a discovery result by one. -/
def shiftIdx : PyResult (Nat × Port) → PyResult (Nat × Port)
  | .ok (k, q) => .ok (k + 1, q)
  | .exn e => .exn e

/-- `SyncBox._findSyncBox`: scan the candidates in order; an endpoint
that fails to open is skipped; the first endpoint whose probe read
returns `'C'` is returned (with its index) and the scan stops; a probed
non-matching endpoint is left open and the scan continues; if no
candidate matches, raise. -/
def findSyncBox : List Candidate → PyResult (Nat × Port) × List ProbeOutcome
  | [] => (.exn .portNotFound, [])
  | c :: cs =>
    if c.opens then
      if (probe c).1 = [67] then
        (.ok (0, (probe c).2), .chosen :: cs.map fun _ => .notTried)
      else
        (shiftIdx (findSyncBox cs).1, .probedNotClosed :: (findSyncBox cs).2)
    else
      (shiftIdx (findSyncBox cs).1, .openFailed :: (findSyncBox cs).2)

/-- First candidate acceptance test of the source: the endpoint opened
and its probe read returned exactly `b"C"`. -/
def respondsC (c : Candidate) : Prop :=
  c.opens = true ∧ c.reply.take 1 = [67]

instance : DecidablePred respondsC := fun c =>
  inferInstanceAs (Decidable (c.opens = true ∧ c.reply.take 1 = [67]))

/-- Trigger events of the design document. -/
inductive TriggerEvent where
  | Sync
  | LeftThumb
  | LeftIndex
  | RightIndex
  | RightThumb
  | Unknown
deriving DecidableEq

/-- Modelled from the spec: the source returns the decoded character
itself and its docstring documents the meaning table ("s" for
synchronization, "a"/"b"/"c"/"d" for the response grips); the
`TriggerEvent` names are the design document's labels for that table. -/
def classifyTrigger (c : Nat) : TriggerEvent :=
  if c = 115 then .Sync
  else if c = 97 then .LeftThumb
  else if c = 98 then .LeftIndex
  else if c = 99 then .RightIndex
  else if c = 100 then .RightThumb
  else .Unknown

/-- Decode one received byte to a trigger event: UTF-8-decode it as
`getTrigger` does, then classify per the documented table. -/
def decodeTriggerByte (b : Nat) : Option TriggerEvent :=
  (decodeUtf8Byte b).map classifyTrigger

/-- Modelled from the spec: the source keeps no explicit state field;
the design document's `ProtocolState` machine labels the connection
lifecycle. -/
inductive ProtocolState where
  | Disconnected
  | ComputerMode
  | Configured
  | Running
deriving DecidableEq

/-- Modelled from the spec: a successful `start()` handshake is valid
from `Configured` or `Running` and moves to `Running`. -/
def stepStart : ProtocolState → Option ProtocolState
  | .Configured => some .Running
  | .Running => some .Running
  | _ => none

/-- Modelled from the spec: a successful `stop()` handshake moves a
connected state back to `Configured`. -/
def stepStop : ProtocolState → Option ProtocolState
  | .Disconnected => none
  | _ => some .Configured

/-- A constructor parameter within the documented range. -/
def inRange (v : Int) : Prop := 0 ≤ v ∧ v ≤ 9999

instance (v : Int) : Decidable (inRange v) :=
  inferInstanceAs (Decidable (0 ≤ v ∧ v ≤ 9999))

/-! ## Properties of the decimal encoding -/

theorem natToDecAux_congr :
    ∀ f₁ f₂ n : Nat, n < f₁ → n < f₂ → natToDecAux f₁ n = natToDecAux f₂ n := by
  intro f₁
  induction f₁ with
  | zero => intro f₂ n h1 h2; omega
  | succ f ih =>
    intro f₂ n h1 h2
    cases f₂ with
    | zero => omega
    | succ g =>
      simp only [natToDecAux]
      by_cases h10 : n < 10
      · simp [h10]
      · have hd : n / 10 < n := Nat.div_lt_self (by omega) (by omega)
        rw [if_neg h10, if_neg h10, ih g (n / 10) (by omega) (by omega)]

theorem natToDec_lt10 {n : Nat} (h : n < 10) : natToDec n = [48 + n] := by
  simp [natToDec, natToDecAux, h]

theorem natToDec_ge10 {n : Nat} (h : 10 ≤ n) :
    natToDec n = natToDec (n / 10) ++ [48 + n % 10] := by
  have hd : n / 10 < n := Nat.div_lt_self (by omega) (by omega)
  have e1 : natToDec n = natToDecAux n (n / 10) ++ [48 + n % 10] := by
    show natToDecAux (n + 1) n = _
    simp only [natToDecAux]
    rw [if_neg (by omega)]
  rw [e1, natToDecAux_congr n (n / 10 + 1) (n / 10) (by omega) (by omega)]
  rfl

theorem natToDec_len_pos (n : Nat) : 1 ≤ (natToDec n).length := by
  by_cases h : n < 10
  · rw [natToDec_lt10 h]; simp
  · rw [natToDec_ge10 (by omega)]; simp

theorem natToDec_len_le :
    ∀ k n : Nat, n < 10 ^ (k + 1) → (natToDec n).length ≤ k + 1 := by
  intro k
  induction k with
  | zero =>
    intro n h
    rw [natToDec_lt10 (by simpa using h)]
    simp
  | succ k ih =>
    intro n h
    by_cases h10 : n < 10
    · rw [natToDec_lt10 h10]; simp
    · rw [natToDec_ge10 (by omega), List.length_append]
      have hq : n / 10 < 10 ^ (k + 1) := by
        refine Nat.div_lt_of_lt_mul ?_
        calc n < 10 ^ (k + 1 + 1) := h
          _ = 10 * 10 ^ (k + 1) := by ring
      have := ih (n / 10) hq
      simp only [List.length_cons, List.length_nil]
      omega

theorem natToDec_len_ge :
    ∀ k n : Nat, 10 ^ k ≤ n → k + 1 ≤ (natToDec n).length := by
  intro k
  induction k with
  | zero => intro n _; exact natToDec_len_pos n
  | succ k ih =>
    intro n h
    have h10 : 10 ≤ n := by
      calc (10 : Nat) = 10 ^ 1 := (pow_one 10).symm
        _ ≤ 10 ^ (k + 1) := Nat.pow_le_pow_right (by norm_num) (by omega)
        _ ≤ n := h
    rw [natToDec_ge10 h10, List.length_append]
    have hq : 10 ^ k ≤ n / 10 := by
      rw [Nat.le_div_iff_mul_le (by norm_num)]
      calc 10 ^ k * 10 = 10 ^ (k + 1) := (pow_succ 10 k).symm
        _ ≤ n := h
    have := ih (n / 10) hq
    simp only [List.length_cons, List.length_nil]
    omega

theorem natToDec_digits4 (n : Nat) (h : n ≤ 9999) :
    List.replicate (4 - (natToDec n).length) 48 ++ natToDec n =
      [48 + n / 1000 % 10, 48 + n / 100 % 10, 48 + n / 10 % 10, 48 + n % 10] := by
  by_cases c1 : n < 10
  · rw [natToDec_lt10 c1]
    simp [List.replicate]
    omega
  · by_cases c2 : n < 100
    · rw [natToDec_ge10 (by omega), natToDec_lt10 (show n / 10 < 10 by omega)]
      simp [List.replicate]
      omega
    · by_cases c3 : n < 1000
      · rw [natToDec_ge10 (by omega), natToDec_ge10 (show 10 ≤ n / 10 by omega),
          natToDec_lt10 (show n / 10 / 10 < 10 by omega)]
        simp [List.replicate]
        omega
      · rw [natToDec_ge10 (by omega), natToDec_ge10 (show 10 ≤ n / 10 by omega),
          natToDec_ge10 (show 10 ≤ n / 10 / 10 by omega),
          natToDec_lt10 (show n / 10 / 10 / 10 < 10 by omega)]
        simp [List.replicate]
        omega

theorem decodeDec_digits4 (n : Nat) (h : n ≤ 9999) :
    decodeDec [48 + n / 1000 % 10, 48 + n / 100 % 10, 48 + n / 10 % 10, 48 + n % 10]
      = n := by
  simp [decodeDec]
  omega

theorem stringVar_inRange (v : Int) (h0 : 0 ≤ v) (h1 : v ≤ 9999) :
    stringVar v =
      .ok (List.replicate (4 - (natToDec v.toNat).length) 48 ++ natToDec v.toNat) := by
  have hneg : ¬ v < 0 := by omega
  have hl1 : 1 ≤ (natToDec v.toNat).length := natToDec_len_pos _
  have hl4 : (natToDec v.toNat).length ≤ 4 := by
    refine natToDec_len_le 3 v.toNat ?_
    norm_num
    omega
  have hps : pyStr v = natToDec v.toNat := by simp [pyStr, hneg]
  rcases show (natToDec v.toNat).length = 1 ∨ (natToDec v.toNat).length = 2 ∨
      (natToDec v.toNat).length = 3 ∨ (natToDec v.toNat).length = 4 by omega
    with hL | hL | hL | hL <;>
    simp [stringVar, hps, hL, List.replicate]

theorem stringVar_inRange_digits (v : Int) (h0 : 0 ≤ v) (h1 : v ≤ 9999) :
    stringVar v = .ok [48 + v.toNat / 1000 % 10, 48 + v.toNat / 100 % 10,
      48 + v.toNat / 10 % 10, 48 + v.toNat % 10] := by
  rw [stringVar_inRange v h0 h1, natToDec_digits4 v.toNat (by omega)]

theorem stringVar_len5 (v : Int) (h : 5 ≤ (pyStr v).length) :
    stringVar v = .exn .parameterOutOfRange := by
  simp only [stringVar]
  rw [if_neg (by omega), if_neg (by omega), if_neg (by omega), if_neg (by omega)]

/-! ## Claim C2: round trip of the in-range parameter encoding -/

/-- C2: for every integer `v` in `[0, 9999]`, `_stringVar v` returns a
4-character ASCII field equal to `v`'s decimal representation
left-padded with zeros to width 4 (its four bytes are the ASCII digits
of `v` from the thousands place down), and parsing the field back as a
decimal number yields `v`. -/
theorem stringVar_roundtrip (v : Int) (h0 : 0 ≤ v) (h1 : v ≤ 9999) :
    ∃ f, stringVar v = .ok f ∧ f.length = 4 ∧
      f = [48 + v.toNat / 1000 % 10, 48 + v.toNat / 100 % 10,
           48 + v.toNat / 10 % 10, 48 + v.toNat % 10] ∧
      decodeDec f = v.toNat :=
  ⟨_, stringVar_inRange_digits v h0 h1, rfl, rfl, decodeDec_digits4 v.toNat (by omega)⟩

/-- C2 witness: the theorem applied at `v = 7` (the field is `"0007"`,
bytes `[48, 48, 48, 55]`). -/
theorem stringVar_roundtrip_witness :
    ∃ f, stringVar 7 = .ok f ∧ f.length = 4 ∧
      f = [48 + (7 : Int).toNat / 1000 % 10, 48 + (7 : Int).toNat / 100 % 10,
           48 + (7 : Int).toNat / 10 % 10, 48 + (7 : Int).toNat % 10] ∧
      decodeDec f = (7 : Int).toNat :=
  stringVar_roundtrip 7 (by decide) (by decide)

/-! ## Claim C3: rejection of out-of-range parameters -/

/-- C3 counterexample: the claim says every `v` outside `[0, 9999]` —
in particular every negative `v` — fails with `ParameterOutOfRange`,
but `str(-1)` is the two-character string `"-1"`, which `_stringVar`
pads to the four bytes `"00-1"` and returns successfully. -/
theorem stringVar_neg_one_ok : stringVar (-1) = .ok [48, 48, 45, 49] := by decide

/-- C3 amended: `_stringVar v` fails with `ParameterOutOfRange` exactly
when the decimal string of `v` exceeds four characters, i.e. for
`v ≥ 10000` and for `v ≤ -1000`; for `v` in `[-999, -1]` it instead
returns a four-byte field that contains an ASCII minus sign (45). -/
theorem stringVar_out_of_range :
    (∀ v : Int, 10000 ≤ v ∨ v ≤ -1000 → stringVar v = .exn .parameterOutOfRange) ∧
    (∀ v : Int, -999 ≤ v → v ≤ -1 →
      ∃ f, stringVar v = .ok f ∧ f.length = 4 ∧ 45 ∈ f) := by
  constructor
  · intro v hv
    refine stringVar_len5 v ?_
    rcases hv with hv | hv
    · have hneg : ¬ v < 0 := by omega
      have hps : pyStr v = natToDec v.toNat := by simp [pyStr, hneg]
      have h5 : 5 ≤ (natToDec v.toNat).length := by
        refine natToDec_len_ge 4 v.toNat ?_
        norm_num
        omega
      rw [hps]
      omega
    · have hneg : v < 0 := by omega
      have hps : pyStr v = 45 :: natToDec v.natAbs := by simp [pyStr, hneg]
      have h4 : 4 ≤ (natToDec v.natAbs).length := by
        refine natToDec_len_ge 3 v.natAbs ?_
        norm_num
        omega
      rw [hps]
      simp only [List.length_cons]
      omega
  · intro v hm hM
    have hneg : v < 0 := by omega
    have hps : pyStr v = 45 :: natToDec v.natAbs := by simp [pyStr, hneg]
    have hl1 : 1 ≤ (natToDec v.natAbs).length := natToDec_len_pos _
    have hl3 : (natToDec v.natAbs).length ≤ 3 := by
      have h3 : v.natAbs < 10 ^ (2 + 1) := by
        norm_num
        omega
      exact natToDec_len_le 2 v.natAbs h3
    rcases show (natToDec v.natAbs).length = 1 ∨ (natToDec v.natAbs).length = 2 ∨
        (natToDec v.natAbs).length = 3 by omega with hL | hL | hL
    · refine ⟨[48, 48] ++ pyStr v, ?_, ?_, ?_⟩
      · simp [stringVar, hps, hL]
      · simp [hps, hL]
      · simp [hps]
    · refine ⟨[48] ++ pyStr v, ?_, ?_, ?_⟩
      · simp [stringVar, hps, hL]
      · simp [hps, hL]
      · simp [hps]
    · refine ⟨pyStr v, ?_, ?_, ?_⟩
      · simp [stringVar, hps, hL]
      · simp [hps, hL]
      · simp [hps]

/-- C3 amended witness: the amended theorem applied at `v = 10000`,
`v = -2000` (both rejected) and `v = -1` (accepted with a minus sign in
the field). -/
theorem stringVar_out_of_range_witness :
    stringVar 10000 = .exn .parameterOutOfRange ∧
    stringVar (-2000) = .exn .parameterOutOfRange ∧
    ∃ f, stringVar (-1) = .ok f ∧ f.length = 4 ∧ 45 ∈ f :=
  ⟨stringVar_out_of_range.1 10000 (Or.inl (by decide)),
   stringVar_out_of_range.1 (-2000) (Or.inr (by decide)),
   stringVar_out_of_range.2 (-1) (by decide) (by decide)⟩

/-! ## Claim C5: start/stop over the protocol state machine -/

/-- C5: when every handshake read returns the expected confirmation
byte, then from any state in `{Configured, Running}` the code-level
`start()` and `stop()` handshakes both succeed, `start()` followed by
`stop()` leaves the `ProtocolState` machine in `Configured`, and
calling `start()` twice ends in the same state as calling it once. -/
theorem start_stop_state (s : ProtocolState) (p : Port)
    (hs : s = .Configured ∨ s = .Running)
    (hS : p.input.take 1 = [83])
    (hA : (p.input.drop 1).take 1 = [65]) :
    (start p).1 = .ok () ∧
    (stop (start p).2).1 = .ok () ∧
    (stepStart s >>= stepStop) = some .Configured ∧
    (stepStart s >>= stepStart) = stepStart s := by
  have hA' : p.input.tail.take 1 = [65] := by
    rw [← List.drop_one]
    exact hA
  refine ⟨?_, ?_, ?_, ?_⟩
  · simp [start, Port.write, Port.read, hS]
  · simp [start, stop, Port.write, Port.read, hS, hA']
  · rcases hs with h | h <;> subst h <;> rfl
  · rcases hs with h | h <;> subst h <;> rfl

/-- C5 witness: the theorem applied at `s = Configured` on a port whose
device supplies the confirmations `'S'` then `'A'`. -/
theorem start_stop_state_witness :
    (start ⟨[], [83, 65], none, false⟩).1 = .ok () ∧
    (stop (start ⟨[], [83, 65], none, false⟩).2).1 = .ok () ∧
    (stepStart .Configured >>= stepStop) = some .Configured ∧
    (stepStart .Configured >>= stepStart) = stepStart .Configured :=
  start_stop_state .Configured ⟨[], [83, 65], none, false⟩ (Or.inl rfl)
    (by decide) (by decide)

/-! ## Claim C6: close on a mismatched confirmation byte -/

/-- C6 (code bug evidence): on a mismatched disconnect confirmation
(here `'X'`, byte 88) `close()` raises `DisconnectFailed` *before* the
`self.port.close()` line runs, so the transport is left open — the
claim says it is released for every confirmation byte.  On the matching
byte `'D'` the transport is closed. -/
theorem close_mismatch_leaks :
    ((close ⟨[], [88], none, false⟩).1 = .exn .disconnectFailed ∧
      (close ⟨[], [88], none, false⟩).2.closed = false) ∧
    ((close ⟨[], [68], none, false⟩).1 = .ok () ∧
      (close ⟨[], [68], none, false⟩).2.closed = true) := by decide

/-! ## Claim C8: totality of trigger decoding -/

/-- C8 counterexample: the claim says decoding succeeds for every one
of the 256 byte values, but byte 128 is not a valid one-byte UTF-8
sequence, so `out.decode("utf-8")` raises `UnicodeDecodeError` instead
of producing a `TriggerEvent`: decoding byte 128 yields no event. -/
theorem decodeTriggerByte_128 : decodeTriggerByte 128 = none := by decide

set_option maxRecDepth 4096 in
/-- C8 amended: trigger decoding is deterministic and total only on the
128 ASCII bytes: for `b < 128` it succeeds and maps `'s','a','b','c','d'`
(115, 97, 98, 99, 100) to `Sync`, `LeftThumb`, `LeftIndex`,
`RightIndex`, `RightThumb` and every other ASCII byte to `Unknown`;
every byte in `[128, 255]` fails UTF-8 decoding. -/
theorem decodeTriggerByte_table :
    ∀ b : Fin 256, decodeTriggerByte b.val =
      if b.val = 115 then some .Sync
      else if b.val = 97 then some .LeftThumb
      else if b.val = 98 then some .LeftIndex
      else if b.val = 99 then some .RightIndex
      else if b.val = 100 then some .RightThumb
      else if b.val < 128 then some .Unknown
      else none := by decide

/-! ## Claim C9: discovery does not close non-matching endpoints -/

/-- C9 (code bug evidence): the loop body of `_findSyncBox` contains no
`close()` call, so an endpoint that opened and was probed but did not
answer `'C'` is left open when the scan moves on.  Here candidate 0
answers `'X'` and is left open (`probedNotClosed`), candidate 1 answers
`'C'` and is chosen — the claim says candidate 0 is closed first. -/
theorem findSyncBox_leak_eval :
    (findSyncBox [⟨true, [88]⟩, ⟨true, [67]⟩]).2 = [.probedNotClosed, .chosen] ∧
    (findSyncBox [⟨true, [88]⟩, ⟨true, [67]⟩]).1 =
      .ok (1, ⟨[67], [], some 200, false⟩) := by decide

/-! ## Claim C10: getTrigger resets the stored timeout to None -/

/-- C10: after every `getTrigger` call — whatever per-call timeout was
passed, including the default 0 and `None` — the connection's stored
read-timeout field is `None` (wait indefinitely), so the per-call
timeout never persists and the 0.2 s (200 ms) timeout that discovery
installs on the probed port is overwritten by the first call. -/
theorem getTrigger_resets_timeout :
    (∀ (p : Port) (t : Option Nat), ((getTrigger p t).2).timeoutMs = none) ∧
    (∀ p : Port, ((getTrigger p).2).timeoutMs = none) ∧
    (∀ c : Candidate, ((probe c).2).timeoutMs = some 200) :=
  ⟨fun _ _ => rfl, fun _ => rfl, fun _ => rfl⟩

/-! ## Claim C1: the configuration write sequence -/

theorem stringVar_ok_len4 (v : Int) (h0 : 0 ≤ v) (h1 : v ≤ 9999) :
    ∃ f, stringVar v = .ok f ∧ f.length = 4 :=
  ⟨_, stringVar_inRange_digits v h0 h1, rfl⟩

/-- C1: when all eight numeric parameters are in `[0, 9999]` and the
`'R'` handshake is confirmed, `_configure` writes exactly 48 bytes
after the `'R'` byte — the twelve four-byte fields in the source's
order: dummy, `num_volumes`, `num_slices`, `pulse_length`, `TR_time`,
`trigger_slice`, `trigger_volume`, dummy, dummy,
`optional_trigger_slice`, `optional_trigger_volume`, and the mode flag
(`"0000"` for simulation, `"0001"` otherwise) — and then succeeds if
and only if the echo read returns exactly 48 bytes; the echo's content
is never inspected, only its length. -/
theorem configure_protocol (cfg : Config) (p : Port)
    (h1 : inRange cfg.num_volumes) (h2 : inRange cfg.num_slices)
    (h3 : inRange cfg.pulse_length) (h4 : inRange cfg.TR_time)
    (h5 : inRange cfg.trigger_slice) (h6 : inRange cfg.trigger_volume)
    (h7 : inRange cfg.optional_trigger_slice)
    (h8 : inRange cfg.optional_trigger_volume)
    (hR : p.input.take 1 = [82]) :
    ∃ fv fs fp ft fts ftv fos fov : List Nat,
      stringVar cfg.num_volumes = .ok fv ∧
      stringVar cfg.num_slices = .ok fs ∧
      stringVar cfg.pulse_length = .ok fp ∧
      stringVar cfg.TR_time = .ok ft ∧
      stringVar cfg.trigger_slice = .ok fts ∧
      stringVar cfg.trigger_volume = .ok ftv ∧
      stringVar cfg.optional_trigger_slice = .ok fos ∧
      stringVar cfg.optional_trigger_volume = .ok fov ∧
      (dummyField ++ fv ++ fs ++ fp ++ ft ++ fts ++ ftv ++ dummyField ++ dummyField
        ++ fos ++ fov
        ++ (if cfg.simulation then [48, 48, 48, 48] else [48, 48, 48, 49])).length
        = 48 ∧
      (configure cfg p).2.written =
        p.written ++ [82] ++ (dummyField ++ fv ++ fs ++ fp ++ ft ++ fts ++ ftv
          ++ dummyField ++ dummyField ++ fos ++ fov
          ++ (if cfg.simulation then [48, 48, 48, 48] else [48, 48, 48, 49])) ∧
      ((configure cfg p).1 = .ok () ↔ ((p.input.drop 1).take 48).length = 48) := by
  obtain ⟨fv, hfv, lfv⟩ := stringVar_ok_len4 _ h1.1 h1.2
  obtain ⟨fs, hfs, lfs⟩ := stringVar_ok_len4 _ h2.1 h2.2
  obtain ⟨fp, hfp, lfp⟩ := stringVar_ok_len4 _ h3.1 h3.2
  obtain ⟨ft, hft, lft⟩ := stringVar_ok_len4 _ h4.1 h4.2
  obtain ⟨fts, hfts, lfts⟩ := stringVar_ok_len4 _ h5.1 h5.2
  obtain ⟨ftv, hftv, lftv⟩ := stringVar_ok_len4 _ h6.1 h6.2
  obtain ⟨fos, hfos, lfos⟩ := stringVar_ok_len4 _ h7.1 h7.2
  obtain ⟨fov, hfov, lfov⟩ := stringVar_ok_len4 _ h8.1 h8.2
  refine ⟨fv, fs, fp, ft, fts, ftv, fos, fov, hfv, hfs, hfp, hft, hfts, hftv,
    hfos, hfov, ?_, ?_, ?_⟩
  · cases hsim : cfg.simulation <;>
      simp [hsim, dummyField, List.length_append, lfv, lfs, lfp, lft, lfts, lftv,
        lfos, lfov]
  · simp [configure, Port.write, Port.read, hR, configFields, hfv, hfs, hfp, hft,
      hfts, hftv, hfos, hfov, writeFields, dummyField, List.append_assoc]
    split <;> rfl
  · simp [configure, Port.write, Port.read, hR, configFields, hfv, hfs, hfp, hft,
      hfts, hftv, hfos, hfov, writeFields, dummyField]
    split
    · rename_i h
      simp
      omega
    · rename_i h
      simp
      omega

/-- C1 witness: the theorem applied at the source's default
configuration on a port whose device confirms `'R'` and echoes 48
bytes (the scenario of the design document, writing
`0000 0016 0001 0100 3000 0001 0001 0000 0000 0000 0000 0000`). -/
theorem configure_protocol_witness :
    ∃ fv fs fp ft fts ftv fos fov : List Nat,
      stringVar 16 = .ok fv ∧
      stringVar 1 = .ok fs ∧
      stringVar 100 = .ok fp ∧
      stringVar 3000 = .ok ft ∧
      stringVar 1 = .ok fts ∧
      stringVar 1 = .ok ftv ∧
      stringVar 0 = .ok fos ∧
      stringVar 0 = .ok fov ∧
      (dummyField ++ fv ++ fs ++ fp ++ ft ++ fts ++ ftv ++ dummyField ++ dummyField
        ++ fos ++ fov ++ [48, 48, 48, 48]).length = 48 ∧
      (configure (Config.mk 16 1 1 1 100 3000 0 0 true)
          ⟨[], 82 :: List.replicate 48 48, none, false⟩).2.written =
        [] ++ [82] ++ (dummyField ++ fv ++ fs ++ fp ++ ft ++ fts ++ ftv
          ++ dummyField ++ dummyField ++ fos ++ fov ++ [48, 48, 48, 48]) ∧
      ((configure (Config.mk 16 1 1 1 100 3000 0 0 true)
          ⟨[], 82 :: List.replicate 48 48, none, false⟩).1 = .ok () ↔
        (((82 :: List.replicate 48 48 : List Nat).drop 1).take 48).length = 48) :=
  configure_protocol (Config.mk 16 1 1 1 100 3000 0 0 true)
    ⟨[], 82 :: List.replicate 48 48, none, false⟩
    (by decide) (by decide) (by decide) (by decide) (by decide) (by decide)
    (by decide) (by decide) (by decide)

/-! ## Claim C7: what is on the wire when encoding fails -/

theorem stringVar_exn_eq (v : Int) (e : SyncBoxError)
    (h : stringVar v = .exn e) : e = .parameterOutOfRange := by
  by_cases c1 : (pyStr v).length = 1
  · simp [stringVar, c1] at h
  · by_cases c2 : (pyStr v).length = 2
    · simp [stringVar, c1, c2] at h
    · by_cases c3 : (pyStr v).length = 3
      · simp [stringVar, c1, c2, c3] at h
      · by_cases c4 : (pyStr v).length = 4
        · simp [stringVar, c1, c2, c3, c4] at h
        · simp [stringVar, c1, c2, c3, c4] at h
          exact h.symm

theorem first_exn_decomp :
    ∀ fs : List (PyResult (List Nat)),
      (∃ e, PyResult.exn e ∈ fs) →
      ∃ (k : Nat) (pre : List (List Nat)) (e : SyncBoxError),
        fs.take k = pre.map PyResult.ok ∧ fs[k]? = some (.exn e) := by
  intro fs
  induction fs with
  | nil =>
    rintro ⟨e, he⟩
    simp at he
  | cons f fs ih =>
    rintro ⟨e, he⟩
    cases f with
    | exn e0 => exact ⟨0, [], e0, by simp, by simp⟩
    | ok bs =>
      have hin : PyResult.exn e ∈ fs := by
        rcases List.mem_cons.mp he with h | h
        · exact absurd h (by simp)
        · exact h
      obtain ⟨k, pre, e1, h1, h2⟩ := ih ⟨e, hin⟩
      exact ⟨k + 1, bs :: pre, e1, by simp [List.take_succ_cons, h1],
        by simpa using h2⟩

theorem writeFields_stops_at_exn :
    ∀ (fs : List (PyResult (List Nat))) (k : Nat) (pre : List (List Nat))
      (e : SyncBoxError) (p : Port),
      fs.take k = pre.map PyResult.ok →
      fs[k]? = some (.exn e) →
      writeFields fs p = (.exn e, { p with written := p.written ++ pre.flatten }) := by
  intro fs
  induction fs with
  | nil =>
    intro k pre e p _ hk
    simp at hk
  | cons f fs ih =>
    intro k pre e p hpre hk
    cases k with
    | zero =>
      have hpre0 : pre = [] := by
        cases pre with
        | nil => rfl
        | cons b pre2 => simp at hpre
      subst hpre0
      have hf : f = .exn e := by simpa using hk
      subst hf
      simp [writeFields]
    | succ k =>
      cases pre with
      | nil => simp at hpre
      | cons b pre2 =>
        have h1 : f = .ok b ∧ fs.take k = pre2.map PyResult.ok := by
          simpa [List.take_succ_cons] using hpre
        obtain ⟨hf, htail⟩ := h1
        subst hf
        have hk2 : fs[k]? = some (.exn e) := by simpa using hk
        show writeFields fs (p.write b) = _
        rw [ih k pre2 e (p.write b) htail hk2]
        simp [Port.write, List.flatten_cons, List.append_assoc]

/-- C7 counterexample: the claim says an encoding failure is detected
before any protocol bytes are sent, leaving the write sequence
unchanged; but with `num_volumes = 10000` the failed `configure` call
has already written the `'R'` command and the leading dummy field
before `_stringVar` raises, so the write sequence is not empty. -/
theorem configure_out_of_range_writes :
    (configure (Config.mk 10000 1 1 1 100 3000 0 0 true)
        ⟨[], [82], none, false⟩).1 = .exn .parameterOutOfRange ∧
    (configure (Config.mk 10000 1 1 1 100 3000 0 0 true)
        ⟨[], [82], none, false⟩).2.written = [82, 48, 48, 48, 48] := by decide

/-- C7 amended: when some parameter's encoding fails with
`ParameterOutOfRange` (and the `'R'` handshake was confirmed),
`configure` fails with `ParameterOutOfRange` before writing any byte of
the first failing field, but only after the `'R'` command, the leading
dummy field and every field before the failing one have been written:
there is an index `k` whose entry in the field list is the raising one,
all entries before `k` are successfully encoded fields `pre` starting
with the dummy, and the bytes written by the call are exactly `'R'`
followed by the concatenation of `pre` — nothing of the failing field;
the transport's write sequence is extended, not unchanged. -/
theorem configure_out_of_range_aborts (cfg : Config) (p : Port)
    (hR : p.input.take 1 = [82])
    (hfail : stringVar cfg.num_volumes = .exn .parameterOutOfRange ∨
      stringVar cfg.num_slices = .exn .parameterOutOfRange ∨
      stringVar cfg.pulse_length = .exn .parameterOutOfRange ∨
      stringVar cfg.TR_time = .exn .parameterOutOfRange ∨
      stringVar cfg.trigger_slice = .exn .parameterOutOfRange ∨
      stringVar cfg.trigger_volume = .exn .parameterOutOfRange ∨
      stringVar cfg.optional_trigger_slice = .exn .parameterOutOfRange ∨
      stringVar cfg.optional_trigger_volume = .exn .parameterOutOfRange) :
    ∃ (k : Nat) (pre : List (List Nat)),
      (configFields cfg).take k = pre.map PyResult.ok ∧
      (configFields cfg)[k]? = some (.exn .parameterOutOfRange) ∧
      pre[0]? = some dummyField ∧
      (configure cfg p).1 = .exn .parameterOutOfRange ∧
      (configure cfg p).2.written = p.written ++ [82] ++ pre.flatten ∧
      (configure cfg p).2.written ≠ p.written := by
  have hex : ∃ e, PyResult.exn e ∈ configFields cfg := by
    rcases hfail with hx | hx | hx | hx | hx | hx | hx | hx <;>
      exact ⟨SyncBoxError.parameterOutOfRange, by simp [configFields, hx]⟩
  have hall : ∀ e, PyResult.exn e ∈ configFields cfg →
      e = SyncBoxError.parameterOutOfRange := by
    intro e he
    simp only [configFields, List.mem_cons, List.not_mem_nil, or_false] at he
    rcases he with h | h | h | h | h | h | h | h | h | h | h | h <;>
      first
        | exact stringVar_exn_eq _ _ h.symm
        | simp at h
  obtain ⟨k, pre, e, hpre, hk⟩ := first_exn_decomp (configFields cfg) hex
  have he : e = SyncBoxError.parameterOutOfRange := hall e (List.getElem?_mem hk)
  subst he
  have hwf := writeFields_stops_at_exn (configFields cfg) k pre
    SyncBoxError.parameterOutOfRange
    { p with written := p.written ++ [82], input := p.input.drop 1 } hpre hk
  have hconf1 : (configure cfg p).1 = .exn .parameterOutOfRange := by
    simp only [configure, Port.write, Port.read, hR]
    rw [if_neg (by simp)]
    rw [hwf]
  have hconf2 : (configure cfg p).2.written = p.written ++ [82] ++ pre.flatten := by
    simp only [configure, Port.write, Port.read, hR]
    rw [if_neg (by simp)]
    rw [hwf]
  refine ⟨k, pre, hpre, hk, ?_, hconf1, hconf2, ?_⟩
  · cases k with
    | zero => simp [configFields] at hk
    | succ k =>
      have hd : configFields cfg = .ok dummyField :: (configFields cfg).tail := rfl
      rw [hd, List.take_succ_cons] at hpre
      cases pre with
      | nil => simp at hpre
      | cons b pre2 =>
        simp only [List.map_cons, List.cons.injEq, PyResult.ok.injEq] at hpre
        simp [hpre.1]
  · rw [hconf2]
    intro habs
    have hlen := congrArg List.length habs
    simp [List.length_append] at hlen

/-- C7 amended witness: the amended theorem applied at
`num_volumes = 10000` on a post-discovery port (its write sequence
already holds the `'C'` probe byte) whose device confirms `'R'`. -/
theorem configure_out_of_range_aborts_witness :
    ∃ (k : Nat) (pre : List (List Nat)),
      (configFields (Config.mk 10000 1 1 1 100 3000 0 0 true)).take k =
        pre.map PyResult.ok ∧
      (configFields (Config.mk 10000 1 1 1 100 3000 0 0 true))[k]? =
        some (.exn .parameterOutOfRange) ∧
      pre[0]? = some dummyField ∧
      (configure (Config.mk 10000 1 1 1 100 3000 0 0 true)
        ⟨[67], [82], none, false⟩).1 = .exn .parameterOutOfRange ∧
      (configure (Config.mk 10000 1 1 1 100 3000 0 0 true)
          ⟨[67], [82], none, false⟩).2.written =
        [67] ++ [82] ++ pre.flatten ∧
      (configure (Config.mk 10000 1 1 1 100 3000 0 0 true)
        ⟨[67], [82], none, false⟩).2.written ≠ [67] :=
  configure_out_of_range_aborts (Config.mk 10000 1 1 1 100 3000 0 0 true)
    ⟨[67], [82], none, false⟩ (by decide) (Or.inl (by decide))

/-! ## Claim C4: first responder wins during discovery -/

theorem probe_conf (c : Candidate) : (probe c).1 = c.reply.take 1 := rfl

theorem findSyncBox_none :
    ∀ cs : List Candidate, (∀ c ∈ cs, ¬ respondsC c) →
      (findSyncBox cs).1 = .exn .portNotFound := by
  intro cs
  induction cs with
  | nil => intro _; rfl
  | cons c cs ih =>
    intro h
    have hc : ¬ respondsC c := h c (by simp)
    have hrest : ∀ x ∈ cs, ¬ respondsC x := fun x hx => h x (by simp [hx])
    have hres := ih hrest
    simp only [findSyncBox]
    by_cases ho : c.opens
    · have hconf : ¬ (probe c).1 = [67] := by
        rw [probe_conf]
        intro hc2
        exact hc ⟨ho, hc2⟩
      rw [if_pos (by simp [ho]), if_neg hconf]
      simp only
      rw [hres]
      rfl
    · rw [if_neg (by simp [ho])]
      simp only
      rw [hres]
      rfl

theorem findSyncBox_at_first :
    ∀ (cs : List Candidate) (k : Nat) (c : Candidate),
      cs[k]? = some c → respondsC c →
      (∀ cj ∈ cs.take k, ¬ respondsC cj) →
      (findSyncBox cs).1 = .ok (k, (probe c).2) ∧
      (∀ j, k < j → j < cs.length → (findSyncBox cs).2[j]? = some .notTried) ∧
      (∀ j cj, j < k → cs[j]? = some cj → cj.opens = false →
        (findSyncBox cs).2[j]? = some .openFailed) := by
  intro cs
  induction cs with
  | nil =>
    intro k c hk
    simp at hk
  | cons c0 cs ih =>
    intro k c hk hresp hfirst
    cases k with
    | zero =>
      have hc : c0 = c := by simpa using hk
      subst hc
      have ho : c0.opens = true := hresp.1
      have hcf : (probe c0).1 = [67] := by
        rw [probe_conf]
        exact hresp.2
      have hstep : findSyncBox (c0 :: cs) =
          (.ok (0, (probe c0).2), .chosen :: cs.map fun _ => .notTried) := by
        simp [findSyncBox, ho, hcf]
      refine ⟨?_, ?_, ?_⟩
      · rw [hstep]
      · intro j h0 hlen
        cases j with
        | zero => omega
        | succ j =>
          have hj : j < cs.length := by simpa using hlen
          rw [hstep]
          simp [List.getElem?_replicate, hj]
      · intro j cj hj
        omega
    | succ k =>
      have hc0 : ¬ respondsC c0 := hfirst c0 (by simp [List.take_succ_cons])
      have hk2 : cs[k]? = some c := by simpa using hk
      have hfirst2 : ∀ cj ∈ cs.take k, ¬ respondsC cj := fun cj hcj =>
        hfirst cj (by simp [List.take_succ_cons, hcj])
      obtain ⟨ih1, ih2, ih3⟩ := ih k c hk2 hresp hfirst2
      by_cases ho : c0.opens
      · have hcf : ¬ (probe c0).1 = [67] := by
          rw [probe_conf]
          intro h2
          exact hc0 ⟨ho, h2⟩
        have hstep : findSyncBox (c0 :: cs) =
            (shiftIdx (findSyncBox cs).1,
              .probedNotClosed :: (findSyncBox cs).2) := by
          simp [findSyncBox, ho, hcf]
        refine ⟨?_, ?_, ?_⟩
        · rw [hstep]
          show shiftIdx (findSyncBox cs).1 = _
          rw [ih1]
          rfl
        · intro j h1 h2
          cases j with
          | zero => omega
          | succ j =>
            have hj2 : j < cs.length := by simpa using h2
            rw [hstep]
            simpa using ih2 j (by omega) hj2
        · intro j cj hj hcj hop
          cases j with
          | zero =>
            have hcj0 : c0 = cj := by simpa using hcj
            rw [← hcj0] at hop
            rw [hop] at ho
            simp at ho
          | succ j =>
            rw [hstep]
            simpa using ih3 j cj (by omega) (by simpa using hcj) hop
      · have hstep : findSyncBox (c0 :: cs) =
            (shiftIdx (findSyncBox cs).1, .openFailed :: (findSyncBox cs).2) := by
          simp [findSyncBox, ho]
        refine ⟨?_, ?_, ?_⟩
        · rw [hstep]
          show shiftIdx (findSyncBox cs).1 = _
          rw [ih1]
          rfl
        · intro j h1 h2
          cases j with
          | zero => omega
          | succ j =>
            have hj2 : j < cs.length := by simpa using h2
            rw [hstep]
            simpa using ih2 j (by omega) hj2
        · intro j cj hj hcj hop
          cases j with
          | zero =>
            rw [hstep]
            simp
          | succ j =>
            rw [hstep]
            simpa using ih3 j cj (by omega) (by simpa using hcj) hop

/-- C4: during discovery, if the `k`-th candidate is the first whose
probe read returns `'C'`, `_findSyncBox` returns the open connection of
candidate `k` (bound to index `k`) and never opens or probes any
candidate after position `k`; candidates before `k` whose open raises
`SerialException` are skipped non-fatally; and if no candidate ever
replies `'C'`, discovery fails with `PortNotFound`. -/
theorem findSyncBox_first_responder :
    (∀ (cs : List Candidate) (k : Nat) (c : Candidate),
      cs[k]? = some c → respondsC c →
      (∀ cj ∈ cs.take k, ¬ respondsC cj) →
      (findSyncBox cs).1 = .ok (k, (probe c).2) ∧
      (probe c).2.closed = false ∧
      (∀ j, k < j → j < cs.length → (findSyncBox cs).2[j]? = some .notTried) ∧
      (∀ j cj, j < k → cs[j]? = some cj → cj.opens = false →
        (findSyncBox cs).2[j]? = some .openFailed)) ∧
    (∀ cs : List Candidate, (∀ c ∈ cs, ¬ respondsC c) →
      (findSyncBox cs).1 = .exn .portNotFound) := by
  constructor
  · intro cs k c hk hresp hfirst
    obtain ⟨g1, g2, g3⟩ := findSyncBox_at_first cs k c hk hresp hfirst
    exact ⟨g1, rfl, g2, g3⟩
  · exact findSyncBox_none

/-- C4 witness: the theorem applied to a four-candidate list whose
first candidate fails to open, whose second replies `'X'`, and whose
third is the first to reply `'C'` (the fourth is never tried); and to a
one-candidate list with no responder, which fails with `PortNotFound`. -/
theorem findSyncBox_first_responder_witness :
    ((findSyncBox [⟨false, []⟩, ⟨true, [88]⟩, ⟨true, [67]⟩, ⟨true, [67]⟩]).1 =
        .ok (2, (probe ⟨true, [67]⟩).2) ∧
      (probe (⟨true, [67]⟩ : Candidate)).2.closed = false ∧
      (∀ j, 2 < j →
        j < ([⟨false, []⟩, ⟨true, [88]⟩, ⟨true, [67]⟩, ⟨true, [67]⟩] :
          List Candidate).length →
        (findSyncBox [⟨false, []⟩, ⟨true, [88]⟩, ⟨true, [67]⟩,
          ⟨true, [67]⟩]).2[j]? = some .notTried) ∧
      (∀ j cj, j < 2 →
        ([⟨false, []⟩, ⟨true, [88]⟩, ⟨true, [67]⟩, ⟨true, [67]⟩] :
          List Candidate)[j]? = some cj → cj.opens = false →
        (findSyncBox [⟨false, []⟩, ⟨true, [88]⟩, ⟨true, [67]⟩,
          ⟨true, [67]⟩]).2[j]? = some .openFailed)) ∧
    (findSyncBox [⟨true, [88]⟩]).1 = .exn .portNotFound :=
  ⟨findSyncBox_first_responder.1
      [⟨false, []⟩, ⟨true, [88]⟩, ⟨true, [67]⟩, ⟨true, [67]⟩] 2 ⟨true, [67]⟩
      (by decide) (by decide) (by decide),
    findSyncBox_first_responder.2 [⟨true, [88]⟩] (by decide)⟩

end SyncBox
